import Mathlib

/-!
Shallow embedding of `src/app.py` (Singapore History chatbot).

The embedded functions are `query_huggingface_model` (HTTP retry loop,
lines 87-182), `query_with_rag` (retrieval, prompt template and fallback,
lines 185-215), and `answer` (the UI dispatch at lines 314-320 that picks
between the two depending on whether the vector store is present).

Modelling decisions:
  * JSON values are an inductive `Json`; numbers are rationals (the
    literal values 512, 0.7, 0.9 of the source are exact decimals).  The decimal
    rendering of non-integer numbers inside the Python `str()` fallback is
    abstracted (no claim depends on it).
  * An HTTP attempt's outcome is an oracle value `AttemptOutcome`: a
    response with a status code, a parse result for `response.json()`
    (`Except` error means `.json()` raised) and the raw `response.text`,
    or a timeout, or another request exception.  The whole run consumes a
    stream `Nat → AttemptOutcome`.
  * `time.sleep` calls are recorded in a list of slept durations; HTTP
    calls are counted.
  * The chroma collection is modelled by the outcome of its `query` call:
    either a raised failure, or a possibly-falsy results dict with an
    optional `"documents"` entry (a Python empty dict is falsy and
    behaves exactly like a dict with no `"documents"` key, so both are
    modelled by `none`).
-/

/-- JSON values, as produced by `response.json()`. -/
inductive Json where
  | null : Json
  | bool (b : Bool) : Json
  | num (q : ℚ) : Json
  | str (s : String) : Json
  | arr (elems : List Json) : Json
  | obj (fields : List (String × Json)) : Json

/-- Lookup of a key in a JSON object's field list (Python `dict` access;
parsed JSON objects have unique keys, so first-match lookup is faithful). -/
def lookupField : List (String × Json) → String → Option Json
  | [], _ => none
  | (k, v) :: rest, key => if k = key then some v else lookupField rest key

/-- Field access on a JSON object (`none` for non-objects or missing keys). -/
def Json.getField : Json → String → Option Json
  | .obj kvs, key => lookupField kvs key
  | _, _ => none

/-- Key list of a JSON object. -/
def Json.keys : Json → Option (List String)
  | .obj kvs => some (kvs.map fun kv => kv.1)
  | _ => none

mutual
/-- Model of Python `repr` on parsed JSON values (numeric and escape
rendering abstracted; no claim depends on this function's output). -/
def pyRepr : Json → String
  | .null => "None"
  | .bool true => "True"
  | .bool false => "False"
  | .num q => if q.den = 1 then toString q.num else toString q.num ++ "/" ++ toString q.den
  | .str s => "\x27" ++ s ++ "\x27"
  | .arr xs => "[" ++ pyReprList xs ++ "]"
  | .obj kvs => "\x7b" ++ pyReprObj kvs ++ "\x7d"

/-- Comma-joined reprs of list elements. -/
def pyReprList : List Json → String
  | [] => ""
  | [x] => pyRepr x
  | x :: y :: rest => pyRepr x ++ ", " ++ pyReprList (y :: rest)

/-- Comma-joined reprs of dict entries. -/
def pyReprObj : List (String × Json) → String
  | [] => ""
  | [(k, v)] => pyRepr (.str k) ++ ": " ++ pyRepr v
  | (k, v) :: e :: rest => pyRepr (.str k) ++ ": " ++ pyRepr v ++ ", " ++ pyReprObj (e :: rest)
end

/-- Model of Python `str` on parsed JSON values (`str` of a `str` is
itself; everything else falls back to `repr` shape). -/
def pyStr : Json → String
  | .str s => s
  | j => pyRepr j

/-- Outcome of one `requests.post` attempt: a response (status code, the
result of `response.json()` — `.error` means parsing raised — and the raw
`response.text`), a `requests.exceptions.Timeout`, or another exception. -/
inductive AttemptOutcome where
  | response (status : Nat) (body : Except String Json) (text : String) : AttemptOutcome
  | timeout : AttemptOutcome
  | exn (msg : String) : AttemptOutcome

/-- Prefix an outcome onto an outcome stream. -/
def streamCons (a : AttemptOutcome) (rest : Nat → AttemptOutcome) : Nat → AttemptOutcome
  | 0 => a
  | n + 1 => rest n

/-- app.py line 155: message returned when processing a 200 response raises. -/
def parseErrorMsg : String :=
  "I encountered an error processing the response. Please try again."

/-- app.py line 163: message returned once 503 retries are exhausted. -/
def initializingMsg : String :=
  "The model is currently initializing. Please try again shortly."

/-- app.py line 168: message returned on HTTP 403. -/
def forbiddenMsg : String :=
  "Access denied (HTTP 403). Your API token may not have permission to use this model."

/-- app.py line 170: message returned on any other non-success status. -/
def statusErrorMsg (status : Nat) : String :=
  "Sorry, I encountered an error (Status code: " ++ toString status ++ "). Please try again later."

/-- app.py line 177: message returned once timeout retries are exhausted. -/
def timeoutMsg : String :=
  "The request timed out. Please try again in a moment."

/-- app.py line 179: message returned on any other request exception. -/
def requestErrorMsg (msg : String) : String :=
  "An error occurred: " ++ msg ++ ". Please try again later."

/-- app.py line 182: message returned if the retry loop runs zero times. -/
def exhaustedMsg : String :=
  "Unable to get a response after multiple attempts. Please try again later."

/-- app.py lines 139-147: extract `generated_text` from the parsed 200
response body.  `none` models a raised exception (`.get` on a non-dict
first element, or `.strip()` on a non-string field value), caught by the
inner `except` at line 151. -/
def extract_generated_text : Json → Option String
  | .arr (first :: _) =>
    match first with
    | .obj kvs =>
      match lookupField kvs "generated_text" with
      | some (.str s) => some s
      | some _ => none
      | none => some ""
    | _ => none
  | .obj kvs =>
    match lookupField kvs "generated_text" with
    | some (.str s) => some s
    | some _ => none
    | none => some ""
  | j => some (pyStr j)

/-- Model of Python `str.strip()`: drop whitespace characters from both
ends (ASCII whitespace; exotic Unicode space handling is identical for
every string appearing in the claims). -/
def pyStrip (s : String) : String :=
  ⟨((s.data.dropWhile Char.isWhitespace).reverse.dropWhile Char.isWhitespace).reverse⟩

/-- app.py lines 133-155: handling of a status-200 response.  A body that
failed to parse, or whose processing raised, yields `parseErrorMsg`;
otherwise the extracted text is stripped and returned. -/
def handle200 : Except String Json → String
  | .error _ => parseErrorMsg
  | .ok j =>
    match extract_generated_text j with
    | some t => pyStrip t
    | none => parseErrorMsg

/-- Result of running the retry loop: the returned reply, the number of
HTTP attempts issued, and the list of slept backoff durations in order. -/
structure RunOut where
  reply : String
  calls : Nat
  sleeps : List Nat

/-- app.py lines 123-182: the retry loop `for attempt in range(max_retries)`.
`remaining` is the number of loop iterations left; the current attempt's
outcome is `outcomes 0` and the stream is shifted on retry.  The Python
guard `attempt < max_retries - 1` holds exactly when more than one
iteration remains, i.e. when `remaining ≠ 0` after peeling the current
one. -/
def queryLoop (outcomes : Nat → AttemptOutcome) : Nat → RunOut
  | 0 => ⟨exhaustedMsg, 0, []⟩
  | remaining + 1 =>
    match outcomes 0 with
    | .response status body _text =>
      if status = 200 then
        ⟨handle200 body, 1, []⟩
      else if status = 503 then
        if remaining = 0 then
          ⟨initializingMsg, 1, []⟩
        else
          let rest := queryLoop (fun n => outcomes (n + 1)) remaining
          ⟨rest.reply, rest.calls + 1, 15 :: rest.sleeps⟩
      else if status = 403 then
        ⟨forbiddenMsg, 1, []⟩
      else
        ⟨statusErrorMsg status, 1, []⟩
    | .timeout =>
      if remaining = 0 then
        ⟨timeoutMsg, 1, []⟩
      else
        let rest := queryLoop (fun n => outcomes (n + 1)) remaining
        ⟨rest.reply, rest.calls + 1, 10 :: rest.sleeps⟩
    | .exn msg => ⟨requestErrorMsg msg, 1, []⟩

/-- app.py lines 99-104: the fixed instruction template wrapped around
every prompt before it is sent. -/
def prompt_with_context (prompt : String) : String :=
  "You are a helpful assistant specialized in Singapore history. " ++
  "Keep your answers factual, informative and focused on Singapore\x27s history.\n\n" ++
  "Question: " ++ prompt ++ "\n\n" ++
  "Answer:"

/-- app.py lines 107-120: the JSON request payload. -/
def payload (prompt : String) : Json :=
  .obj
    [("inputs", .str (prompt_with_context prompt)),
     ("parameters", .obj
       [("max_new_tokens", .num 512),
        ("temperature", .num (7 / 10)),
        ("top_p", .num (9 / 10)),
        ("do_sample", .bool true),
        ("return_full_text", .bool false)]),
     ("options", .obj
       [("use_cache", .bool true),
        ("wait_for_model", .bool true)])]

/-- Observable result of `query_huggingface_model`: the reply text, the
attempt count, the slept durations, and the request payload that is sent
on every attempt (built at lines 107-120 before the loop). -/
structure CallOut where
  reply : String
  calls : Nat
  sleeps : List Nat
  sent : Json

/-- app.py lines 87-182: `query_huggingface_model(prompt, max_retries)`,
driven by the attempt-outcome stream. -/
def query_huggingface_model (prompt : String) (maxRetries : Nat)
    (outcomes : Nat → AttemptOutcome) : CallOut :=
  let run := queryLoop outcomes maxRetries
  ⟨run.reply, run.calls, run.sleeps, payload prompt⟩

/-- The value of the `"documents"` entry of a chroma query-result dict:
a list (one entry per query text) of lists of document texts.  Only the
`"documents"` entry is modelled; the other entries (ids, distances, …)
are never read by app.py. -/
structure QueryResults where
  documents : Option (List (List String))

/-- Outcome of `collection.query(...)` at app.py lines 188-191: either it
raised (caught at line 212), or it returned a results value — `none`
models both Python `None` and an empty (falsy) dict. -/
inductive RetrievalOutcome where
  | ok (results : Option QueryResults) : RetrievalOutcome
  | failure (msg : String) : RetrievalOutcome

/-- app.py lines 196-204: the RAG prompt template, with the retrieved
documents newline-joined into the context block. -/
def rag_prompt (contexts : List String) (prompt : String) : String :=
  "Context information:\n" ++ String.intercalate "\n" contexts ++ "\n\n" ++
  "Based on this context, answer the following question about Singapore history:\n" ++
  "Question: " ++ prompt ++ "\n\n" ++
  "Answer:"

/-- app.py lines 185-215: `query_with_rag(prompt, collection, max_retries)`.
The guard at line 194 is `results and "documents" in results and
len(results["documents"]) > 0`; when it holds, `contexts =
results["documents"][0]`. -/
def query_with_rag (prompt : String) (retrieval : RetrievalOutcome)
    (maxRetries : Nat) (outcomes : Nat → AttemptOutcome) : CallOut :=
  match retrieval with
  | .ok results =>
    match results with
    | some r =>
      match r.documents with
      | some (contexts :: _) =>
        query_huggingface_model (rag_prompt contexts prompt) maxRetries outcomes
      | some [] => query_huggingface_model prompt maxRetries outcomes
      | none => query_huggingface_model prompt maxRetries outcomes
    | none => query_huggingface_model prompt maxRetries outcomes
  | .failure _ => query_huggingface_model prompt maxRetries outcomes

/-- app.py lines 314-320: the top-level answer dispatch of the UI — RAG
when the vector store is present, direct generation otherwise, both with
the default `max_retries = 2`. -/
def answer (query : String) (vector_store : Option RetrievalOutcome)
    (outcomes : Nat → AttemptOutcome) : CallOut :=
  match vector_store with
  | some retrieval => query_with_rag query retrieval 2 outcomes
  | none => query_huggingface_model query 2 outcomes

/-- The `"inputs"` string of a sent payload, when present. -/
def sentInputs (c : CallOut) : Option String :=
  match c.sent.getField "inputs" with
  | some (.str s) => some s
  | _ => none

/-- Concrete outcome stream: every attempt gets a 200 response whose body
is a one-element list whose object lacks `generated_text`. -/
def missingFieldOutcomes : Nat → AttemptOutcome :=
  fun _ => .response 200 (.ok (.arr [.obj []])) "[\x7b\x7d]"

/-- Concrete outcome stream: every attempt times out. -/
def allTimeoutOutcomes : Nat → AttemptOutcome :=
  fun _ => .timeout

/-- Concrete outcome stream: every attempt gets a 503 response. -/
def all503Outcomes : Nat → AttemptOutcome :=
  fun _ => .response 503 (.error "not json") "loading"

/-- Concrete retrieval outcome: a well-formed result with one retrieved
document list containing one document. -/
def someDocsRetrieval : RetrievalOutcome :=
  .ok (some ⟨some [["Raffles founded Singapore in 1819"]]⟩)

/-- Concrete retrieval outcome: a well-formed result whose inner document
list for the query is empty (`results["documents"] == [[]]`). -/
def emptyInnerRetrieval : RetrievalOutcome :=
  .ok (some ⟨some [[]]⟩)

/-- Concrete outcome stream: every attempt gets a 403 response. -/
def forbidden403Outcomes : Nat → AttemptOutcome :=
  fun _ => .response 403 (.error "forbidden") "Access denied"

/-- The status-error message is never the empty string. -/
theorem statusErrorMsg_ne_empty (s : Nat) : statusErrorMsg s ≠ "" := by
  intro h
  have hl := congrArg String.length h
  have h0 : 0 < ("Sorry, I encountered an error (Status code: " : String).length := by decide
  simp only [statusErrorMsg, String.length_append] at hl
  simp at hl
  omega

/-- The generic request-exception message is never the empty string. -/
theorem requestErrorMsg_ne_empty (m : String) : requestErrorMsg m ≠ "" := by
  intro h
  have hl := congrArg String.length h
  have h0 : 0 < ("An error occurred: " : String).length := by decide
  simp only [requestErrorMsg, String.length_append] at hl
  simp at hl
  omega

/-- The instruction template never leaves the prompt unchanged. -/
theorem prompt_with_context_ne (p : String) : prompt_with_context p ≠ p := by
  intro h
  have hl := congrArg String.length h
  have h0 : 0 < ("Question: " : String).length := by decide
  simp only [prompt_with_context, String.length_append] at hl
  omega

/-- If the retry loop returns the empty string, some attempt was answered
with a status-200 response whose processed body is the empty string; every
other return path produces a fixed non-empty message. -/
theorem queryLoop_reply_empty {out : Nat → AttemptOutcome} {n : Nat}
    (h : (queryLoop out n).reply = "") :
    ∃ i b t, out i = AttemptOutcome.response 200 b t ∧ handle200 b = "" := by
  induction n generalizing out with
  | zero =>
    simp only [queryLoop] at h
    exact absurd h (by decide)
  | succ m ih =>
    cases hout : out 0 with
    | response status body t =>
      by_cases h200 : status = 200
      · subst h200
        simp [queryLoop, hout] at h
        exact ⟨0, body, t, hout, h⟩
      · by_cases h503 : status = 503
        · subst h503
          by_cases hm : m = 0
          · simp [queryLoop, hout, hm] at h
            exact absurd h (by decide)
          · simp [queryLoop, hout, hm] at h
            obtain ⟨i, b, tt, hi, hb⟩ := ih h
            exact ⟨i + 1, b, tt, hi, hb⟩
        · by_cases h403 : status = 403
          · subst h403
            simp [queryLoop, hout] at h
            exact absurd h (by decide)
          · simp [queryLoop, hout, h200, h503, h403] at h
            exact absurd h (statusErrorMsg_ne_empty status)
    | timeout =>
      by_cases hm : m = 0
      · simp [queryLoop, hout, hm] at h
        exact absurd h (by decide)
      · simp [queryLoop, hout, hm] at h
        obtain ⟨i, b, tt, hi, hb⟩ := ih h
        exact ⟨i + 1, b, tt, hi, hb⟩
    | exn msg =>
      simp [queryLoop, hout] at h
      exact absurd h (requestErrorMsg_ne_empty msg)

/-- One unfolding of the loop when the current attempt gets a 503 and at
least one further iteration remains. -/
theorem queryLoop_503_step {out : Nat → AttemptOutcome} {b : Except String Json}
    {t : String} (h0 : out 0 = AttemptOutcome.response 503 b t) (k : Nat) :
    queryLoop out (k + 2) =
      ⟨(queryLoop (fun n => out (n + 1)) (k + 1)).reply,
       (queryLoop (fun n => out (n + 1)) (k + 1)).calls + 1,
       15 :: (queryLoop (fun n => out (n + 1)) (k + 1)).sleeps⟩ := by
  rw [queryLoop, h0]
  rfl

/-- One unfolding of the loop when the current attempt times out and at
least one further iteration remains. -/
theorem queryLoop_timeout_step {out : Nat → AttemptOutcome}
    (h0 : out 0 = AttemptOutcome.timeout) (k : Nat) :
    queryLoop out (k + 2) =
      ⟨(queryLoop (fun n => out (n + 1)) (k + 1)).reply,
       (queryLoop (fun n => out (n + 1)) (k + 1)).calls + 1,
       10 :: (queryLoop (fun n => out (n + 1)) (k + 1)).sleeps⟩ := by
  rw [queryLoop, h0]
  rfl

/-- Against an always-503 backend the loop issues one call per iteration,
sleeps 15 between consecutive attempts, and ends with the initializing
message. -/
theorem queryLoop_all503 {out : Nat → AttemptOutcome}
    (h : ∀ i, ∃ b t, out i = AttemptOutcome.response 503 b t) :
    ∀ m, queryLoop out (m + 1) = ⟨initializingMsg, m + 1, List.replicate m 15⟩ := by
  intro m
  induction m generalizing out with
  | zero =>
    obtain ⟨b, t, h0⟩ := h 0
    simp [queryLoop, h0]
  | succ k ih =>
    obtain ⟨b, t, h0⟩ := h 0
    rw [queryLoop_503_step h0 k, ih (fun i => h (i + 1))]
    simp [List.replicate_succ]

/-- Against an always-timing-out backend the loop issues one call per
iteration, sleeps 10 between consecutive attempts, and ends with the
timeout message. -/
theorem queryLoop_allTimeout {out : Nat → AttemptOutcome}
    (h : ∀ i, out i = AttemptOutcome.timeout) :
    ∀ m, queryLoop out (m + 1) = ⟨timeoutMsg, m + 1, List.replicate m 10⟩ := by
  intro m
  induction m generalizing out with
  | zero =>
    simp [queryLoop, h 0]
  | succ k ih =>
    rw [queryLoop_timeout_step (h 0) k, ih (fun i => h (i + 1))]
    simp [List.replicate_succ]

/-- Whatever the vector store and retrieval outcome, the reply of the
top-level dispatch is the reply of the retry loop run with the default
two attempts. -/
theorem answer_reply_eq (q : String) (vs : Option RetrievalOutcome)
    (out : Nat → AttemptOutcome) : (answer q vs out).reply = (queryLoop out 2).reply := by
  cases vs with
  | none => rfl
  | some r =>
    cases r with
    | failure m => rfl
    | ok results =>
      cases results with
      | none => rfl
      | some qr =>
        cases qr with
        | mk docs =>
          cases docs with
          | none => rfl
          | some l =>
            cases l with
            | nil => rfl
            | cons c ds => rfl

/-- C1, counterexample: with the vector store present, a successful
retrieval, and a backend that answers 200 with a body whose object lacks
`generated_text`, the top-level answer operation returns the empty
string — so it does not always return non-empty text. -/
theorem C1_counterexample :
    (answer "When was Singapore founded?" (some someDocsRetrieval) missingFieldOutcomes).reply
      = "" := rfl

/-- C1 (amended): for every query the top-level answer operation returns
text and never raises, even when the vector index is absent, unreachable,
or returns zero documents; the returned text can be empty, but only when
some attempt was answered with a 200-status response whose extracted
`generated_text` strips to the empty string (in particular when the field
is missing or empty) — every other path yields a fixed non-empty
message. -/
theorem C1_answer_empty_only_from_200 (q : String) (vs : Option RetrievalOutcome)
    (out : Nat → AttemptOutcome) (h : (answer q vs out).reply = "") :
    ∃ i b t, out i = AttemptOutcome.response 200 b t ∧ handle200 b = "" := by
  rw [answer_reply_eq] at h
  exact queryLoop_reply_empty h

/-- Witness for C1: the implication applied at a concrete run that does
return the empty string. -/
theorem C1_witness :
    ∃ i b t, missingFieldOutcomes i = AttemptOutcome.response 200 b t ∧ handle200 b = "" :=
  C1_answer_empty_only_from_200 "When was Singapore founded?" (some someDocsRetrieval)
    missingFieldOutcomes rfl

/-- C2, counterexample: when the retrieval result is well-formed but its
inner document list for the query is empty (`results["documents"] ==
[[]]`), `query_with_rag` does not fall back to the raw query — the inputs
it sends wrap the RAG template over an empty context, not the raw
query. -/
theorem C2_counterexample :
    sentInputs (query_with_rag "q" emptyInnerRetrieval 2 allTimeoutOutcomes)
      = some (prompt_with_context (rag_prompt [] "q")) ∧
    prompt_with_context (rag_prompt [] "q") ≠ prompt_with_context "q" := ⟨rfl, by decide⟩

/-- C2 (amended): if retrieval raises, or yields a falsy result, a result
without a `documents` entry, or an empty outer `documents` list,
`query_with_rag` falls back to direct generation with the raw query and
the failure is not surfaced as fatal; but a result whose inner document
list for the query is empty does not fall back: it proceeds through the
RAG template with an empty context block. -/
theorem C2_retrieval_fallback (q m : String) (mr : Nat) (out : Nat → AttemptOutcome)
    (ds : List (List String)) :
    query_with_rag q (.failure m) mr out = query_huggingface_model q mr out ∧
    query_with_rag q (.ok none) mr out = query_huggingface_model q mr out ∧
    query_with_rag q (.ok (some ⟨none⟩)) mr out = query_huggingface_model q mr out ∧
    query_with_rag q (.ok (some ⟨some []⟩)) mr out = query_huggingface_model q mr out ∧
    query_with_rag q (.ok (some ⟨some ([] :: ds)⟩)) mr out
      = query_huggingface_model (rag_prompt [] q) mr out :=
  ⟨rfl, rfl, rfl, rfl, rfl⟩

/-- C3, counterexample: a 200-status response whose well-formed body
merely lacks the `generated_text` field yields the empty string, not the
generic parse-error message. -/
theorem C3_counterexample :
    (query_huggingface_model "q" 2 missingFieldOutcomes).reply = "" ∧
    ("" : String) ≠ parseErrorMsg := ⟨rfl, by decide⟩

/-- C3 (amended): for a 200-status response, the generic parse-error
message is returned when the body fails to parse as JSON or its
processing raises (a non-object first list element, or a non-string
`generated_text` value); a well-formed body merely missing the
`generated_text` field instead yields the empty string, because the field
lookup defaults to the empty string. -/
theorem C3_parse_error_paths (q e t : String) (mr : Nat) (rest : Nat → AttemptOutcome) :
    (query_huggingface_model q (mr + 1)
        (streamCons (.response 200 (.error e) t) rest)).reply = parseErrorMsg ∧
    (query_huggingface_model q (mr + 1)
        (streamCons (.response 200 (.ok (.arr [.num 1])) t) rest)).reply = parseErrorMsg ∧
    (query_huggingface_model q (mr + 1)
        (streamCons (.response 200 (.ok (.obj [("generated_text", .null)])) t) rest)).reply
      = parseErrorMsg ∧
    (query_huggingface_model q (mr + 1)
        (streamCons (.response 200 (.ok (.arr [.obj []])) t) rest)).reply = "" :=
  ⟨rfl, rfl, rfl, rfl⟩

/-- C4: if the backend returns 503 on every attempt, the orchestrator
issues exactly `max_retries` HTTP calls, sleeps 15 time units between
consecutive attempts (`max_retries - 1` sleeps in total), and returns the
initializing message. -/
theorem C4_cold_start_retries (p : String) (mr : Nat) (out : Nat → AttemptOutcome)
    (hmr : 1 ≤ mr) (h503 : ∀ i, ∃ b t, out i = AttemptOutcome.response 503 b t) :
    (query_huggingface_model p mr out).reply = initializingMsg ∧
    (query_huggingface_model p mr out).calls = mr ∧
    (query_huggingface_model p mr out).sleeps = List.replicate (mr - 1) 15 := by
  cases mr with
  | zero => omega
  | succ m =>
    have hq := queryLoop_all503 h503 m
    simp [query_huggingface_model, hq]

/-- Witness for C4: three attempts against an always-503 backend. -/
theorem C4_witness :
    (query_huggingface_model "q" 3 all503Outcomes).reply = initializingMsg ∧
    (query_huggingface_model "q" 3 all503Outcomes).calls = 3 ∧
    (query_huggingface_model "q" 3 all503Outcomes).sleeps = List.replicate 2 15 :=
  C4_cold_start_retries "q" 3 all503Outcomes (by decide)
    (fun _ => ⟨Except.error "not json", "loading", rfl⟩)

/-- C5: if every attempt times out, the orchestrator returns the timeout
apology after exactly `max_retries` attempts, sleeping the fixed 10-unit
backoff between consecutive attempts for a total slept time of
`(max_retries - 1) * 10`. -/
theorem C5_timeout_retries (p : String) (mr : Nat) (out : Nat → AttemptOutcome)
    (hmr : 1 ≤ mr) (ht : ∀ i, out i = AttemptOutcome.timeout) :
    (query_huggingface_model p mr out).reply = timeoutMsg ∧
    (query_huggingface_model p mr out).calls = mr ∧
    (query_huggingface_model p mr out).sleeps = List.replicate (mr - 1) 10 ∧
    (query_huggingface_model p mr out).sleeps.sum = (mr - 1) * 10 := by
  cases mr with
  | zero => omega
  | succ m =>
    have hq := queryLoop_allTimeout ht m
    simp [query_huggingface_model, hq, List.sum_replicate, smul_eq_mul]

/-- Witness for C5: three attempts against an always-timing-out backend. -/
theorem C5_witness :
    (query_huggingface_model "q" 3 allTimeoutOutcomes).reply = timeoutMsg ∧
    (query_huggingface_model "q" 3 allTimeoutOutcomes).calls = 3 ∧
    (query_huggingface_model "q" 3 allTimeoutOutcomes).sleeps = List.replicate 2 10 ∧
    (query_huggingface_model "q" 3 allTimeoutOutcomes).sleeps.sum = 2 * 10 :=
  C5_timeout_retries "q" 3 allTimeoutOutcomes (by decide) (fun _ => rfl)

/-- C6: a 403 response on the first attempt short-circuits — exactly one
HTTP call, no sleep, and the access-denied message. -/
theorem C6_forbidden_short_circuit (p : String) (mr : Nat) (out : Nat → AttemptOutcome)
    (b : Except String Json) (t : String) (hmr : 1 ≤ mr)
    (h0 : out 0 = AttemptOutcome.response 403 b t) :
    (query_huggingface_model p mr out).reply = forbiddenMsg ∧
    (query_huggingface_model p mr out).calls = 1 ∧
    (query_huggingface_model p mr out).sleeps = [] := by
  cases mr with
  | zero => omega
  | succ m => simp [query_huggingface_model, queryLoop, h0]

/-- Witness for C6: a concrete 403 first attempt with the default two
retries. -/
theorem C6_witness :
    (query_huggingface_model "q" 2 forbidden403Outcomes).reply = forbiddenMsg ∧
    (query_huggingface_model "q" 2 forbidden403Outcomes).calls = 1 ∧
    (query_huggingface_model "q" 2 forbidden403Outcomes).sleeps = [] :=
  C6_forbidden_short_circuit "q" 2 forbidden403Outcomes (Except.error "forbidden")
    "Access denied" (by decide) rfl

/-- C7: whenever the index returns a document list, the prompt that
`query_with_rag` passes toward the generation backend is the RAG
template: the retrieved documents newline-joined in index order, then the
instruction to answer from that context, then the literal question, then
the final cue. -/
theorem C7_rag_prompt_structure (q : String) (contexts : List String)
    (ds : List (List String)) (mr : Nat) (out : Nat → AttemptOutcome) :
    (query_with_rag q (.ok (some ⟨some (contexts :: ds)⟩)) mr out).sent
      = payload (rag_prompt contexts q) ∧
    rag_prompt contexts q =
      "Context information:\n" ++ String.intercalate "\n" contexts ++ "\n\n" ++
      "Based on this context, answer the following question about Singapore history:\n" ++
      "Question: " ++ q ++ "\n\n" ++
      "Answer:" :=
  ⟨rfl, rfl⟩

/-- C8, counterexample: the `parameters` object of the request payload
carries five fields, not exactly the four claimed — `return_full_text`
is also present. -/
theorem C8_counterexample :
    Option.bind ((query_huggingface_model "q" 2 allTimeoutOutcomes).sent.getField "parameters")
        Json.keys
      = some ["max_new_tokens", "temperature", "top_p", "do_sample", "return_full_text"] ∧
    (["max_new_tokens", "temperature", "top_p", "do_sample", "return_full_text"] : List String)
      ≠ ["max_new_tokens", "temperature", "top_p", "do_sample"] := ⟨rfl, by decide⟩

/-- C8 (amended): every request payload is a JSON object with keys
`inputs`, `parameters` and `options`; `inputs` is the templated prompt
string; `parameters` holds exactly `max_new_tokens = 512`,
`temperature = 0.7`, `top_p = 0.9`, `do_sample = true` and additionally
`return_full_text = false`; `options` holds `use_cache = true` and
`wait_for_model = true`. -/
theorem C8_payload_fields (p : String) (mr : Nat) (out : Nat → AttemptOutcome) :
    (query_huggingface_model p mr out).sent.keys = some ["inputs", "parameters", "options"] ∧
    (query_huggingface_model p mr out).sent.getField "inputs"
      = some (.str (prompt_with_context p)) ∧
    (query_huggingface_model p mr out).sent.getField "parameters"
      = some (.obj
          [("max_new_tokens", .num 512),
           ("temperature", .num (7 / 10)),
           ("top_p", .num (9 / 10)),
           ("do_sample", .bool true),
           ("return_full_text", .bool false)]) ∧
    (query_huggingface_model p mr out).sent.getField "options"
      = some (.obj [("use_cache", .bool true), ("wait_for_model", .bool true)]) :=
  ⟨rfl, rfl, rfl, rfl⟩

/-- C9: the inputs string sent to the backend is always the fixed
instruction template with the prompt spliced after the question cue and
an answer cue appended; the bare prompt is never sent as-is, and a
RAG-augmented prompt coming from `query_with_rag` is wrapped in a second
question/answer template layer. -/
theorem C9_prompt_always_wrapped (p q : String) (contexts : List String)
    (ds : List (List String)) (mr : Nat) (out : Nat → AttemptOutcome) :
    sentInputs (query_huggingface_model p mr out) = some (prompt_with_context p) ∧
    prompt_with_context p =
      "You are a helpful assistant specialized in Singapore history. " ++
      "Keep your answers factual, informative and focused on Singapore\x27s history.\n\n" ++
      "Question: " ++ p ++ "\n\n" ++
      "Answer:" ∧
    prompt_with_context p ≠ p ∧
    sentInputs (query_with_rag q (.ok (some ⟨some (contexts :: ds)⟩)) mr out)
      = some (prompt_with_context (rag_prompt contexts q)) :=
  ⟨rfl, rfl, prompt_with_context_ne p, rfl⟩

/-- C10: with `max_retries = 0` the loop body never runs — no HTTP
request, no sleep — and the exhaustion message is returned. -/
theorem C10_zero_retries (p : String) (out : Nat → AttemptOutcome) :
    (query_huggingface_model p 0 out).reply
      = "Unable to get a response after multiple attempts. Please try again later." ∧
    (query_huggingface_model p 0 out).calls = 0 ∧
    (query_huggingface_model p 0 out).sleeps = [] :=
  ⟨rfl, rfl, rfl⟩
